import Mathlib

/-!
Verification of `src/slims/step.py` (SLimsGate step builder / executor).

The Python module is embedded shallowly:

* Python values appearing in the built dictionaries are modelled by the
  inductive `Value`; Python dictionaries are insertion-ordered association
  lists (`Dict`) with `Dict.update` reproducing `dict.update` (replace in
  place on an existing key, append otherwise).
* Python exceptions are modelled by `PyExc`; fallible code returns
  `Except PyExc _`.
* The `flow_run` collaborator (defined in `flowrun.py`, outside the
  embedded module) is modelled from the spec's collaborator contract:
  `check_user_secret()` may raise, `log(text)` appends a string to the
  run's record, `update_status(status)` transitions the run's status and
  may raise.  `FlowRunBehavior` fixes the outcome of each collaborator
  call; `RunState` records the run's status, the log record and every
  `update_status` invocation in order.
-/

/-- Modelled from the spec: `Status` is the external enumeration defined in
`flowrun.py` (not part of the embedded source), a four-state enumeration of
which only `DONE` and `FAILED` are referenced by `step.py`. -/
inductive Status where
  | PENDING : Status
  | RUNNING : Status
  | DONE : Status
  | FAILED : Status
deriving DecidableEq, Repr

/-- A Python exception value.  `stepExecutionException` is the module's own
`StepExecutionException` (raised bare, carrying no message); every other
exception is represented by its type name and message. -/
inductive PyExc where
  | stepExecutionException : PyExc
  | other (name : String) (msg : String) : PyExc
deriving DecidableEq, Repr

/-- A Python value as it appears in the dictionaries built by the module. -/
inductive Value where
  | str (s : String) : Value
  | bool (b : Bool) : Value
  | int (n : Int) : Value
  | null : Value
  | list (xs : List Value) : Value
  | dict (entries : List (String × Value)) : Value

/-- A Python dictionary with string keys: an insertion-ordered association
list whose keys are distinct by construction in the embedded code. -/
abbrev Dict := List (String × Value)

/-- Lookup in a `Dict` (first entry with the given key). -/
def Dict.get? (d : Dict) (k : String) : Option Value :=
  (d.find? fun p => p.1 = k).map fun p => p.2

/-- Setting one key as Python assignment / `dict.update` does: if the key is
present its value is replaced in place (the key keeps its position),
otherwise the pair is appended at the end. -/
def Dict.setKey (d : Dict) (k : String) (v : Value) : Dict :=
  if d.any fun p => p.1 = k then
    d.map fun p => if p.1 = k then (k, v) else p
  else
    d ++ [(k, v)]

/-- `d.update kw`: Python's `d.update(kw)`, applying `setKey` for each pair
of `kw` in order. -/
def Dict.update (d : Dict) : Dict → Dict
  | [] => d
  | (k, v) :: rest => Dict.update (d.setKey k v) rest

/-- Model of `traceback.format_exc()` evaluated while the exception `e` is
being handled: a non-empty human-readable trace string. -/
def format_exc (e : PyExc) : String :=
  "Traceback (most recent call last):\n" ++
    (match e with
     | .stepExecutionException => "StepExecutionException"
     | .other n m => n ++ ": " ++ m) ++ "\n"

/-- The observable state of a `flow_run` collaborator: the status last
successfully set by `update_status`, the log record (arguments of `log`
calls in order), and the arguments of every `update_status` invocation in
order (including invocations that raised). -/
structure RunState where
  status : Option Status
  logs : List String
  statusCalls : List Status
deriving DecidableEq, Repr

/-- `flow_run.log(text)` appends the text to the run's record (the spec's
collaborator contract; it does not raise). -/
def RunState.log (s : RunState) (text : String) : RunState :=
  { s with logs := s.logs ++ [text] }

/-- Modelled from the spec: the outcome of each collaborator call on the
`flow_run` object supplied externally.  `secretCheck = some e` means
`check_user_secret()` raises `e`; `updateStatusExc st = some e` means
`update_status(st)` raises `e` instead of transitioning the status. -/
structure FlowRunBehavior where
  secretCheck : Option PyExc
  updateStatusExc : Status → Option PyExc

/-- `flow_run.update_status(st)` under behaviour `b`: the invocation is
recorded; if the collaborator does not raise, the run's status becomes
`st`, otherwise the raised exception is returned and the status is left
unchanged. -/
def RunState.updateStatus (s : RunState) (b : FlowRunBehavior) (st : Status) :
    RunState × Option PyExc :=
  let s1 := { s with statusCalls := s.statusCalls ++ [st] }
  match b.updateStatusExc st with
  | none => ({ s1 with status := some st }, none)
  | some e => (s1, some e)

/-- The `Step` class: `name`, user `action` (a callable receiving the run
context, which may read and mutate the run state and either return a value
or raise), the `async`, `hidden` flags and the `input` / `output`
parameter lists. -/
structure Step (α : Type) where
  name : String
  action : RunState → RunState × Except PyExc α
  async : Bool
  hidden : Bool
  input : List Value
  output : List Value

/-- `Step.to_dict(route_id)`: the five-key dictionary literal of the
source, keys in source order. -/
def Step.to_dict {α : Type} (step : Step α) (route_id : Value) : Value :=
  Value.dict [
    ("hidden", Value.bool step.hidden),
    ("name", Value.str step.name),
    ("input", Value.dict [("parameters", Value.list step.input)]),
    ("process", Value.dict [
      ("asynchronous", Value.bool step.async),
      ("route", route_id)]),
    ("output", Value.dict [("parameters", Value.list step.output)])]

/-- The `except Exception` block shared verbatim by `execute` and
`_execute_inner`: log the traceback of the exception being handled, call
`update_status(FAILED)`, then `raise StepExecutionException` — unless the
`update_status` call itself raises, in which case that exception
propagates instead. -/
def handleException (b : FlowRunBehavior) (s : RunState) (e : PyExc) :
    RunState × PyExc :=
  let s1 := s.log (format_exc e)
  match s1.updateStatus b Status.FAILED with
  | (s2, none) => (s2, PyExc.stepExecutionException)
  | (s2, some e2) => (s2, e2)

/-- `Step._execute_inner(flow_run)`: invoke the action with the run
context; on success call `update_status(DONE)` and return the action's
value; any exception (from the action or from the `DONE` update) is
handled by the shared `except` block. -/
def Step.execute_inner {α : Type} (step : Step α) (b : FlowRunBehavior)
    (s : RunState) : RunState × Except PyExc α :=
  match step.action s with
  | (s1, .error e) =>
    let (s2, e2) := handleException b s1 e
    (s2, .error e2)
  | (s1, .ok v) =>
    match s1.updateStatus b Status.DONE with
    | (s2, none) => (s2, .ok v)
    | (s2, some e) =>
      let (s3, e2) := handleException b s2 e
      (s3, .error e2)

/-- `Step._execute_async(flow_run)` spawns a detached thread running
`_execute_inner` and returns `None` immediately.  The spawned thread's
effects are concurrent and outside this sequential model; the call itself
changes nothing observable and returns no value. -/
def Step.execute_async {α : Type} (_step : Step α) (_b : FlowRunBehavior)
    (s : RunState) : RunState × Except PyExc (Option α) :=
  (s, .ok none)

/-- `Step.execute(flow_run)`: first `check_user_secret()`, then dispatch on
the `async` flag; any exception escaping the `try` block (a failing secret
check, or the `StepExecutionException` re-raised by `_execute_inner`) is
handled by the shared `except` block.  A sync success returns the action's
value (`some v`); an async dispatch returns Python `None` (`none`). -/
def Step.execute {α : Type} (step : Step α) (b : FlowRunBehavior)
    (s : RunState) : RunState × Except PyExc (Option α) :=
  match b.secretCheck with
  | some e =>
    let (s2, e2) := handleException b s e
    (s2, .error e2)
  | none =>
    if step.async then
      step.execute_async b s
    else
      match step.execute_inner b s with
      | (s1, .ok v) => (s1, .ok (some v))
      | (s1, .error e) =>
        let (s2, e2) := handleException b s1 e
        (s2, .error e2)

/-- `_simple_input(name, label, type, **kwargs)`. -/
def simple_input (name label type : String) (kwargs : Dict) : Dict :=
  Dict.update [("name", Value.str name), ("label", Value.str label),
    ("type", Value.str type)] kwargs

/-- `text_input`. -/
def text_input (name label : String) (kwargs : Dict) : Dict :=
  simple_input name label "STRING" kwargs

/-- `date_input`. -/
def date_input (name label : String) (kwargs : Dict) : Dict :=
  simple_input name label "DATE" kwargs

/-- `date_time_input`. -/
def date_time_input (name label : String) (kwargs : Dict) : Dict :=
  simple_input name label "DATETIME" kwargs

/-- `time_input`. -/
def time_input (name label : String) (kwargs : Dict) : Dict :=
  simple_input name label "TIME" kwargs

/-- `boolean_input`. -/
def boolean_input (name label : String) (kwargs : Dict) : Dict :=
  simple_input name label "BOOLEAN" kwargs

/-- `rich_text_input`. -/
def rich_text_input (name label : String) (kwargs : Dict) : Dict :=
  simple_input name label "TEXT" kwargs

/-- `integer_input`. -/
def integer_input (name label : String) (kwargs : Dict) : Dict :=
  simple_input name label "INTEGER" kwargs

/-- `float_input`. -/
def float_input (name label : String) (kwargs : Dict) : Dict :=
  simple_input name label "FLOAT" kwargs

/-- `password_input`. -/
def password_input (name label : String) (kwargs : Dict) : Dict :=
  simple_input name label "PASSWORD" kwargs

/-- `file_input`. -/
def file_input (name label : String) (kwargs : Dict) : Dict :=
  simple_input name label "FILE" kwargs

/-- The `IndexError` raised by Python list indexing out of range. -/
def indexError : PyExc := PyExc.other "IndexError" "list index out of range"

/-- The `entries` loop of `_choice_with_field_list_input`: for the `i`-th
element of `fieldelements` build `{'type': fieldtype[i] or None, 'field':
fieldelements[i]}` (the loop variable is exactly `fieldelements[i]`);
indexing `fieldtype[i]` out of range raises `IndexError`, discarding the
entries built so far. -/
def fieldListEntries (fieldtype : Option (List Value)) :
    List Value → Nat → Except PyExc (List Value)
  | [], _ => .ok []
  | e :: rest, i =>
    match fieldtype with
    | none =>
      match fieldListEntries none rest (i + 1) with
      | .error ex => .error ex
      | .ok tail => .ok (Value.dict [("type", Value.null), ("field", e)] :: tail)
    | some ft =>
      match ft.get? i with
      | none => .error indexError
      | some t =>
        match fieldListEntries (some ft) rest (i + 1) with
        | .error ex => .error ex
        | .ok tail => .ok (Value.dict [("type", t), ("field", e)] :: tail)

/-- `_choice_with_field_list_input(name, label, datatype, fieldelements,
fieldtype, **kwargs)`. -/
def choice_with_field_list_input (name label datatype : String)
    (fieldelements : List Value) (fieldtype : Option (List Value))
    (kwargs : Dict) : Except PyExc Dict :=
  match fieldListEntries fieldtype fieldelements 0 with
  | .error ex => .error ex
  | .ok entries =>
    .ok (Dict.update [("name", Value.str name), ("label", Value.str label),
      ("type", Value.str datatype),
      ("fieldList", Value.dict [("entries", Value.list entries)])] kwargs)

/-- `single_choice_with_field_list_input` (forwards `**kwargs` correctly). -/
def single_choice_with_field_list_input (name label : String)
    (fieldelements : List Value) (fieldtype : Option (List Value))
    (kwargs : Dict) : Except PyExc Dict :=
  choice_with_field_list_input name label "SINGLE_CHOICE" fieldelements
    fieldtype kwargs

/-- `multiple_choice_with_field_list_input` (forwards `**kwargs`
correctly). -/
def multiple_choice_with_field_list_input (name label : String)
    (fieldelements : List Value) (fieldtype : Option (List Value))
    (kwargs : Dict) : Except PyExc Dict :=
  choice_with_field_list_input name label "MULTIPLE_CHOICE" fieldelements
    fieldtype kwargs

/-- Turn an omitted optional argument into Python `None`. -/
def optValue : Option Value → Value
  | none => Value.null
  | some v => v

/-- `_choice_with_value_map_input(name, label, datatype, table, filtered,
reference, fixed_choice_customer_field, **kwargs)`: builds the `valueMap`
sub-dictionary (source key order: filter, reference, table,
fixedChoiceCustomField) and merges `kwargs` in. -/
def choice_with_value_map_input (name label datatype : String)
    (table filtered reference fixed_choice_customer_field : Option Value)
    (kwargs : Dict) : Dict :=
  let value_map : Dict := [
    ("filter", optValue filtered),
    ("reference", optValue reference),
    ("table", optValue table),
    ("fixedChoiceCustomField", optValue fixed_choice_customer_field)]
  Dict.update [("name", Value.str name), ("label", Value.str label),
    ("type", Value.str datatype), ("valueMap", Value.dict value_map)] kwargs

/-- The `TypeError` raised when the value-map wrappers forward a non-empty
`kwargs` with `*kwargs`: each key becomes one extra positional argument to
`_choice_with_value_map_input`, which takes only 7. -/
def valueMapTypeError : PyExc :=
  PyExc.other "TypeError"
    "_choice_with_value_map_input() takes 7 positional arguments but more were given"

/-- `single_choice_with_value_map_input`: the source forwards its keyword
options with `*kwargs` (unpacking the KEYS as extra positional arguments)
instead of `**kwargs`, so any extra keyword option makes the inner call
raise `TypeError`; with no extra options the inner builder runs with an
empty keyword dict. -/
def single_choice_with_value_map_input (name label : String)
    (table filtered reference fixed_choice_customer_field : Option Value)
    (kwargs : Dict) : Except PyExc Dict :=
  if kwargs.isEmpty then
    .ok (choice_with_value_map_input name label "SINGLE_CHOICE" table
      filtered reference fixed_choice_customer_field [])
  else
    .error valueMapTypeError

/-- `multiple_choice_with_value_map_input`: same `*kwargs` slip as the
single-choice wrapper. -/
def multiple_choice_with_value_map_input (name label : String)
    (table filtered reference fixed_choice_customer_field : Option Value)
    (kwargs : Dict) : Except PyExc Dict :=
  if kwargs.isEmpty then
    .ok (choice_with_value_map_input name label "MULTIPLE_CHOICE" table
      filtered reference fixed_choice_customer_field [])
  else
    .error valueMapTypeError

/-- `table_input(name, label, subparameters, **kwargs)`. -/
def table_input (name label : String) (subparameters : List Value)
    (kwargs : Dict) : Dict :=
  Dict.update [("name", Value.str name), ("label", Value.str label),
    ("type", Value.str "TABLE"),
    ("subParameters", Value.list subparameters)] kwargs

/-- `file_output()`. -/
def file_output : Dict :=
  [("name", Value.str "file"), ("type", Value.str "FILE")]

/-- `value_map_output(name, datatype)`. -/
def value_map_output (name datatype : String) : Dict :=
  [("name", Value.str name), ("datatype", Value.str datatype),
    ("type", Value.str "VALUEMAP")]

/-! ## Dictionary lemmas -/

theorem find_map_setEntry (d : Dict) (k : String) (v : Value)
    (h : d.any (fun p => p.1 = k) = true) :
    (d.map fun p => if p.1 = k then (k, v) else p).find?
      (fun p => p.1 = k) = some (k, v) := by
  induction d with
  | nil => simp at h
  | cons p rest ih =>
    by_cases hp : p.1 = k
    · simp only [List.map_cons, if_pos hp]
      exact List.find?_cons_of_pos _ (by simp)
    · simp only [List.any_cons] at h
      have hr : rest.any (fun p => p.1 = k) = true := by
        simpa [hp] using h
      simp only [List.map_cons, if_neg hp]
      rw [List.find?_cons_of_neg _ (by simp [hp])]
      exact ih hr

theorem Dict.get?_setKey_self (d : Dict) (k : String) (v : Value) :
    (d.setKey k v).get? k = some v := by
  unfold Dict.setKey Dict.get?
  by_cases h : d.any (fun p => p.1 = k) = true
  · rw [if_pos h, find_map_setEntry d k v h]
    rfl
  · rw [if_neg h, List.find?_append]
    have hnone : d.find? (fun p => p.1 = k) = none := by
      rw [List.find?_eq_none]
      intro x hx hpx
      exact h (List.any_eq_true.2 ⟨x, hx, hpx⟩)
    simp [hnone, List.find?]

theorem find_map_setEntry_ne (d : Dict) (k k' : String) (v : Value)
    (hk : k' ≠ k) :
    (d.map fun p => if p.1 = k then (k, v) else p).find?
      (fun p => p.1 = k') = d.find? (fun p => p.1 = k') := by
  induction d with
  | nil => simp
  | cons p rest ih =>
    by_cases hp : p.1 = k
    · simp only [List.map_cons, if_pos hp]
      rw [List.find?_cons_of_neg _ (by simpa using Ne.symm hk),
        List.find?_cons_of_neg _ (by simpa [hp] using Ne.symm hk)]
      exact ih
    · simp only [List.map_cons, if_neg hp]
      by_cases hp' : p.1 = k'
      · rw [List.find?_cons_of_pos _ (by simp [hp']),
          List.find?_cons_of_pos _ (by simp [hp'])]
      · rw [List.find?_cons_of_neg _ (by simp [hp']),
          List.find?_cons_of_neg _ (by simp [hp'])]
        exact ih

theorem Dict.get?_setKey_ne (d : Dict) (k k' : String) (v : Value)
    (hk : k' ≠ k) : (d.setKey k v).get? k' = d.get? k' := by
  unfold Dict.setKey Dict.get?
  by_cases h : d.any (fun p => p.1 = k) = true
  · rw [if_pos h, find_map_setEntry_ne d k k' v hk]
  · rw [if_neg h, List.find?_append]
    have hone : List.find? (fun p => p.1 = k') [(k, v)] = none := by
      rw [List.find?_eq_none]
      intro x hx
      simp only [List.mem_singleton] at hx
      subst hx
      simpa using Ne.symm hk
    simp [hone]

theorem Dict.get?_update_not_mem (kw : Dict) (k : String)
    (hk : k ∉ kw.map Prod.fst) :
    ∀ d : Dict, (d.update kw).get? k = d.get? k := by
  induction kw with
  | nil => intro d; rfl
  | cons p rest ih =>
    intro d
    simp only [List.map_cons, List.mem_cons] at hk
    push_neg at hk
    rw [show Dict.update d (p :: rest) = Dict.update (d.setKey p.1 p.2) rest
      from rfl, ih hk.2, Dict.get?_setKey_ne _ _ _ _ hk.1]

theorem Dict.get?_update_mem (kw : Dict) (k : String) (v : Value)
    (hnd : (kw.map Prod.fst).Nodup) (hget : kw.get? k = some v) :
    ∀ d : Dict, (d.update kw).get? k = some v := by
  induction kw with
  | nil => simp [Dict.get?, List.find?] at hget
  | cons p rest ih =>
    intro d
    obtain ⟨k1, v1⟩ := p
    simp only [List.map_cons, List.nodup_cons] at hnd
    by_cases hp : k1 = k
    · subst hp
      have hv : v = v1 := by
        unfold Dict.get? at hget
        rw [List.find?_cons_of_pos _ (by simp)] at hget
        simpa using hget.symm
      subst hv
      rw [show Dict.update d ((k1, v) :: rest) =
        Dict.update (d.setKey k1 v) rest from rfl,
        Dict.get?_update_not_mem rest k1 hnd.1 (d.setKey k1 v),
        Dict.get?_setKey_self]
    · have hget' : Dict.get? rest k = some v := by
        unfold Dict.get? at hget ⊢
        rwa [List.find?_cons_of_neg _ (by simp [hp])] at hget
      rw [show Dict.update d ((k1, v1) :: rest) =
        Dict.update (d.setKey k1 v1) rest from rfl,
        ih hnd.2 hget' (d.setKey k1 v1)]

/-! ## Claim theorems: dictionary shapes -/

/-- C4: `Step.to_dict(route_id)` is deterministic and returns a mapping
with exactly the five keys `hidden`, `name`, `input`, `process`, `output`,
where `hidden` is the step's hidden flag, `name` the step's name, `input`
is `{parameters: <input list>}`, `output` is `{parameters: <output list>}`,
`process.route` is the given `route_id` and `process.asynchronous` is the
step's async flag. -/
theorem C4_to_dict {α : Type} (step : Step α) (route_id : Value) :
    step.to_dict route_id = step.to_dict route_id
    ∧ ∃ d : Dict, step.to_dict route_id = Value.dict d
      ∧ d.map Prod.fst = ["hidden", "name", "input", "process", "output"]
      ∧ d.get? "hidden" = some (Value.bool step.hidden)
      ∧ d.get? "name" = some (Value.str step.name)
      ∧ d.get? "input" =
          some (Value.dict [("parameters", Value.list step.input)])
      ∧ d.get? "output" =
          some (Value.dict [("parameters", Value.list step.output)])
      ∧ ∃ p : Dict, d.get? "process" = some (Value.dict p)
          ∧ p.get? "route" = some route_id
          ∧ p.get? "asynchronous" = some (Value.bool step.async) := by
  refine ⟨rfl, [("hidden", Value.bool step.hidden),
    ("name", Value.str step.name),
    ("input", Value.dict [("parameters", Value.list step.input)]),
    ("process", Value.dict [("asynchronous", Value.bool step.async),
      ("route", route_id)]),
    ("output", Value.dict [("parameters", Value.list step.output)])],
    rfl, rfl, rfl, rfl, rfl, rfl,
    [("asynchronous", Value.bool step.async), ("route", route_id)],
    rfl, rfl, rfl⟩

/-- C8: every simple scalar input builder returns the fixed
`{name, label, type}` triple with its builder-specific type tag and the
caller's extra keyword options merged in shallowly via `update`, so a
caller-supplied key named `name`, `label` or `type` overrides the fixed
value; in particular `text_input("x","X")` is
`{name:"x", label:"X", type:"STRING"}` and
`integer_input("n","N", defaultValue=5)` additionally carries
`defaultValue: 5`. -/
theorem C8_simple_scalar_builders :
    (∀ (nm lb : String) (kw : Dict),
      text_input nm lb kw = Dict.update [("name", Value.str nm),
        ("label", Value.str lb), ("type", Value.str "STRING")] kw
      ∧ date_input nm lb kw = Dict.update [("name", Value.str nm),
        ("label", Value.str lb), ("type", Value.str "DATE")] kw
      ∧ date_time_input nm lb kw = Dict.update [("name", Value.str nm),
        ("label", Value.str lb), ("type", Value.str "DATETIME")] kw
      ∧ time_input nm lb kw = Dict.update [("name", Value.str nm),
        ("label", Value.str lb), ("type", Value.str "TIME")] kw
      ∧ boolean_input nm lb kw = Dict.update [("name", Value.str nm),
        ("label", Value.str lb), ("type", Value.str "BOOLEAN")] kw
      ∧ rich_text_input nm lb kw = Dict.update [("name", Value.str nm),
        ("label", Value.str lb), ("type", Value.str "TEXT")] kw
      ∧ integer_input nm lb kw = Dict.update [("name", Value.str nm),
        ("label", Value.str lb), ("type", Value.str "INTEGER")] kw
      ∧ float_input nm lb kw = Dict.update [("name", Value.str nm),
        ("label", Value.str lb), ("type", Value.str "FLOAT")] kw
      ∧ password_input nm lb kw = Dict.update [("name", Value.str nm),
        ("label", Value.str lb), ("type", Value.str "PASSWORD")] kw
      ∧ file_input nm lb kw = Dict.update [("name", Value.str nm),
        ("label", Value.str lb), ("type", Value.str "FILE")] kw)
    ∧ (∀ (nm lb tp : String) (kw : Dict) (k : String) (v : Value),
      (kw.map Prod.fst).Nodup → kw.get? k = some v →
      (simple_input nm lb tp kw).get? k = some v)
    ∧ text_input "x" "X" [] = [("name", Value.str "x"),
        ("label", Value.str "X"), ("type", Value.str "STRING")]
    ∧ integer_input "n" "N" [("defaultValue", Value.int 5)] =
        [("name", Value.str "n"), ("label", Value.str "N"),
          ("type", Value.str "INTEGER"), ("defaultValue", Value.int 5)] := by
  refine ⟨fun nm lb kw => ⟨rfl, rfl, rfl, rfl, rfl, rfl, rfl, rfl, rfl, rfl⟩,
    fun nm lb tp kw k v hnd hget =>
      Dict.get?_update_mem kw k v hnd hget _, rfl, rfl⟩

/-- Witness for C8: a caller-supplied `type` key overrides the fixed
`STRING` tag in `text_input`. -/
theorem C8_witness :
    ([(("type" : String), Value.str "OVERRIDE")].map Prod.fst).Nodup
    ∧ Dict.get? [(("type" : String), Value.str "OVERRIDE")] "type" =
        some (Value.str "OVERRIDE")
    ∧ (simple_input "x" "X" "STRING"
        [("type", Value.str "OVERRIDE")]).get? "type" =
        some (Value.str "OVERRIDE") :=
  ⟨by simp, rfl,
    C8_simple_scalar_builders.2.1 "x" "X" "STRING"
      [("type", Value.str "OVERRIDE")] "type" (Value.str "OVERRIDE")
      (by simp) rfl⟩

/-! ## Field-list entries lemmas -/

theorem fieldListEntries_none (fes : List Value) : ∀ i : Nat,
    fieldListEntries none fes i =
      .ok (fes.map fun e => Value.dict [("type", Value.null), ("field", e)]) := by
  induction fes with
  | nil => intro i; rfl
  | cons e rest ih =>
    intro i
    simp only [fieldListEntries, ih (i + 1), List.map_cons]

theorem fieldListEntries_some_ok (ftl : List Value) : ∀ (fes : List Value)
    (i : Nat), i + fes.length ≤ ftl.length →
    fieldListEntries (some ftl) fes i =
      .ok (List.zipWith (fun e t => Value.dict [("type", t), ("field", e)])
        fes (ftl.drop i)) := by
  intro fes
  induction fes with
  | nil => intro i _; rfl
  | cons e rest ih =>
    intro i hlen
    have hi : i < ftl.length := by
      simp only [List.length_cons] at hlen
      omega
    have hget : ftl.get? i = some (ftl.get ⟨i, hi⟩) := by
      rw [List.get?_eq_getElem?, List.getElem?_eq_getElem hi]
      rfl
    have hdrop : ftl.drop i = ftl.get ⟨i, hi⟩ :: ftl.drop (i + 1) := by
      rw [List.drop_eq_getElem_cons hi]
      rfl
    have hrest : i + 1 + rest.length ≤ ftl.length := by
      simp only [List.length_cons] at hlen
      omega
    simp only [fieldListEntries, hget, ih (i + 1) hrest, hdrop,
      List.zipWith_cons_cons]

theorem fieldListEntries_some_short (ftl : List Value) : ∀ (fes : List Value)
    (i : Nat), i ≤ ftl.length → ftl.length < i + fes.length →
    fieldListEntries (some ftl) fes i = .error indexError := by
  intro fes
  induction fes with
  | nil =>
    intro i hle hlt
    simp only [List.length_nil, Nat.add_zero] at hlt
    omega
  | cons e rest ih =>
    intro i hle hlt
    by_cases hi : i < ftl.length
    · have hget : ftl.get? i = some (ftl.get ⟨i, hi⟩) := by
        rw [List.get?_eq_getElem?, List.getElem?_eq_getElem hi]
        rfl
      have h1 : i + 1 ≤ ftl.length := hi
      have h2 : ftl.length < i + 1 + rest.length := by
        simp only [List.length_cons] at hlt
        omega
      simp only [fieldListEntries, hget, ih (i + 1) h1 h2]
    · have hget : ftl.get? i = none := by
        rw [List.get?_eq_getElem?, List.getElem?_eq_none]
        omega
      simp only [fieldListEntries, hget]

/-! ## Claim theorems: choice builders -/

/-- C6: the field-list choice builders pair each element of
`fieldelements` positionally with the corresponding entry of `fieldtype`
(when `fieldtype` is at least as long), as
`entries[i] = {type: fieldtype[i], field: fieldelements[i]}`; when
`fieldtype` is absent every entry's type is null; in particular
`single_choice_with_field_list_input("c","C",["a","b"],
fieldtype=["T1","T2"])` yields entries
`[{type:"T1", field:"a"}, {type:"T2", field:"b"}]`. -/
theorem C6_field_list_pairing (name label : String) (fes ftl : List Value)
    (kw : Dict) (hlen : fes.length ≤ ftl.length) :
    (single_choice_with_field_list_input name label fes (some ftl) kw =
      .ok (Dict.update [("name", Value.str name), ("label", Value.str label),
        ("type", Value.str "SINGLE_CHOICE"),
        ("fieldList", Value.dict [("entries", Value.list
          (List.zipWith (fun e t => Value.dict [("type", t), ("field", e)])
            fes ftl))])] kw))
    ∧ (multiple_choice_with_field_list_input name label fes (some ftl) kw =
      .ok (Dict.update [("name", Value.str name), ("label", Value.str label),
        ("type", Value.str "MULTIPLE_CHOICE"),
        ("fieldList", Value.dict [("entries", Value.list
          (List.zipWith (fun e t => Value.dict [("type", t), ("field", e)])
            fes ftl))])] kw))
    ∧ (single_choice_with_field_list_input name label fes none kw =
      .ok (Dict.update [("name", Value.str name), ("label", Value.str label),
        ("type", Value.str "SINGLE_CHOICE"),
        ("fieldList", Value.dict [("entries", Value.list
          (fes.map fun e =>
            Value.dict [("type", Value.null), ("field", e)]))])] kw))
    ∧ single_choice_with_field_list_input "c" "C"
        [Value.str "a", Value.str "b"]
        (some [Value.str "T1", Value.str "T2"]) [] =
      .ok [("name", Value.str "c"), ("label", Value.str "C"),
        ("type", Value.str "SINGLE_CHOICE"),
        ("fieldList", Value.dict [("entries", Value.list
          [Value.dict [("type", Value.str "T1"), ("field", Value.str "a")],
           Value.dict [("type", Value.str "T2"),
             ("field", Value.str "b")]])])] := by
  have hok := fieldListEntries_some_ok ftl fes 0 (by simpa using hlen)
  have hnone := fieldListEntries_none fes 0
  refine ⟨?_, ?_, ?_, rfl⟩
  · unfold single_choice_with_field_list_input choice_with_field_list_input
    rw [hok]
    simp
  · unfold multiple_choice_with_field_list_input choice_with_field_list_input
    rw [hok]
    simp
  · unfold single_choice_with_field_list_input choice_with_field_list_input
    rw [hnone]

/-- Witness for C6 at the spec's concrete example. -/
theorem C6_witness :
    (([Value.str "a", Value.str "b"] : List Value).length ≤
      ([Value.str "T1", Value.str "T2"] : List Value).length)
    ∧ single_choice_with_field_list_input "c" "C"
        [Value.str "a", Value.str "b"]
        (some [Value.str "T1", Value.str "T2"]) [] =
      .ok (Dict.update [("name", Value.str "c"), ("label", Value.str "C"),
        ("type", Value.str "SINGLE_CHOICE"),
        ("fieldList", Value.dict [("entries", Value.list
          (List.zipWith (fun e t => Value.dict [("type", t), ("field", e)])
            [Value.str "a", Value.str "b"]
            [Value.str "T1", Value.str "T2"]))])] []) :=
  ⟨by decide,
    (C6_field_list_pairing "c" "C" [Value.str "a", Value.str "b"]
      [Value.str "T1", Value.str "T2"] [] (by decide)).1⟩

/-- C7: when `fieldtype` is a list strictly shorter than `fieldelements`,
both field-list choice builders fail with an index-out-of-range error
rather than truncating the entries. -/
theorem C7_field_list_short (name label : String) (fes ftl : List Value)
    (kw : Dict) (hlen : ftl.length < fes.length) :
    single_choice_with_field_list_input name label fes (some ftl) kw =
      .error indexError
    ∧ multiple_choice_with_field_list_input name label fes (some ftl) kw =
      .error indexError := by
  have herr := fieldListEntries_some_short ftl fes 0 (Nat.zero_le _)
    (by simpa using hlen)
  constructor
  · unfold single_choice_with_field_list_input choice_with_field_list_input
    rw [herr]
  · unfold multiple_choice_with_field_list_input choice_with_field_list_input
    rw [herr]

/-- Witness for C7: two field elements against a single field type. -/
theorem C7_witness :
    (([Value.str "T1"] : List Value).length <
      ([Value.str "a", Value.str "b"] : List Value).length)
    ∧ single_choice_with_field_list_input "c" "C"
        [Value.str "a", Value.str "b"] (some [Value.str "T1"]) [] =
      .error indexError :=
  ⟨by decide,
    (C7_field_list_short "c" "C" [Value.str "a", Value.str "b"]
      [Value.str "T1"] [] (by decide)).1⟩

/-- C5 (code bug): the claim says every caller-supplied extra keyword
option is merged into the value-map builders' result verbatim — as their
docstrings also promise — but the source wrappers forward the options
with `*kwargs` instead of `**kwargs`, so any extra keyword option raises
`TypeError`.  With no extra options the claimed shape does hold, with
each omitted optional argument appearing as null inside `valueMap`. -/
theorem C5_value_map_kwargs_bug :
    single_choice_with_value_map_input "n" "L" none none none none
      [("defaultValue", Value.int 5)] = .error valueMapTypeError
    ∧ multiple_choice_with_value_map_input "n" "L" none none none none
      [("defaultValue", Value.int 5)] = .error valueMapTypeError
    ∧ single_choice_with_value_map_input "n" "L" none none none none [] =
      .ok [("name", Value.str "n"), ("label", Value.str "L"),
        ("type", Value.str "SINGLE_CHOICE"),
        ("valueMap", Value.dict [("filter", Value.null),
          ("reference", Value.null), ("table", Value.null),
          ("fixedChoiceCustomField", Value.null)])]
    ∧ multiple_choice_with_value_map_input "n" "L"
        (some (Value.str "Content")) none none none [] =
      .ok [("name", Value.str "n"), ("label", Value.str "L"),
        ("type", Value.str "MULTIPLE_CHOICE"),
        ("valueMap", Value.dict [("filter", Value.null),
          ("reference", Value.null), ("table", Value.str "Content"),
          ("fixedChoiceCustomField", Value.null)])] :=
  ⟨rfl, rfl, rfl, rfl⟩

/-! ## Execution lemmas -/

theorem format_exc_ne_empty (e : PyExc) : format_exc e ≠ "" := by
  intro h
  have hlen := congrArg String.length h
  simp only [format_exc, String.length_append, String.length_empty] at hlen
  have h0 : (0 : Nat) < ("Traceback (most recent call last):\n").length := by
    decide
  omega

/-- The full behaviour of a synchronous `execute` whose secret check passes
and whose action raises `e`, under a collaborator whose
`update_status(FAILED)` does not raise: the inner handler and then the
outer handler each log a traceback and set FAILED, and
`StepExecutionException` propagates. -/
theorem execute_sync_action_raises {α : Type} (step : Step α)
    (b : FlowRunBehavior) (s0 s1 : RunState) (e : PyExc)
    (hasync : step.async = false) (hsec : b.secretCheck = none)
    (hfail : b.updateStatusExc Status.FAILED = none)
    (hact : step.action s0 = (s1, .error e)) :
    step.execute b s0 =
      ({ status := some Status.FAILED,
         logs := s1.logs ++
           [format_exc e, format_exc PyExc.stepExecutionException],
         statusCalls := s1.statusCalls ++ [Status.FAILED, Status.FAILED] },
       .error PyExc.stepExecutionException) := by
  unfold Step.execute Step.execute_inner handleException RunState.updateStatus
    RunState.log
  simp [hsec, hasync, hact, hfail]

/-- The full behaviour of a synchronous `execute` whose secret check passes
and whose action returns `v`, under a collaborator whose
`update_status(DONE)` does not raise. -/
theorem execute_sync_action_returns {α : Type} (step : Step α)
    (b : FlowRunBehavior) (s0 s1 : RunState) (v : α)
    (hasync : step.async = false) (hsec : b.secretCheck = none)
    (hdone : b.updateStatusExc Status.DONE = none)
    (hact : step.action s0 = (s1, .ok v)) :
    step.execute b s0 =
      ({ status := some Status.DONE, logs := s1.logs,
         statusCalls := s1.statusCalls ++ [Status.DONE] },
       .ok (some v)) := by
  unfold Step.execute Step.execute_inner RunState.updateStatus
  simp [hsec, hasync, hact, hdone]

/-- The full behaviour of `execute` when the secret check raises `e`, under
a collaborator whose `update_status(FAILED)` does not raise: one logged
traceback, one FAILED update, `StepExecutionException` raised; the action
and the async flag are never consulted. -/
theorem execute_secret_fails {α : Type} (step : Step α)
    (b : FlowRunBehavior) (s0 : RunState) (e : PyExc)
    (hsec : b.secretCheck = some e)
    (hfail : b.updateStatusExc Status.FAILED = none) :
    step.execute b s0 =
      ({ status := some Status.FAILED,
         logs := s0.logs ++ [format_exc e],
         statusCalls := s0.statusCalls ++ [Status.FAILED] },
       .error PyExc.stepExecutionException) := by
  unfold Step.execute handleException RunState.updateStatus RunState.log
  simp [hsec, hfail]

/-- The full behaviour of a synchronous `execute` whose action returns `v`
but whose `update_status(DONE)` call raises `e` (with
`update_status(FAILED)` not raising). -/
theorem execute_sync_done_update_raises {α : Type} (step : Step α)
    (b : FlowRunBehavior) (s0 s1 : RunState) (v : α) (e : PyExc)
    (hasync : step.async = false) (hsec : b.secretCheck = none)
    (hdone : b.updateStatusExc Status.DONE = some e)
    (hfail : b.updateStatusExc Status.FAILED = none)
    (hact : step.action s0 = (s1, .ok v)) :
    step.execute b s0 =
      ({ status := some Status.FAILED,
         logs := s1.logs ++
           [format_exc e, format_exc PyExc.stepExecutionException],
         statusCalls := s1.statusCalls ++
           [Status.DONE, Status.FAILED, Status.FAILED] },
       .error PyExc.stepExecutionException) := by
  unfold Step.execute Step.execute_inner handleException RunState.updateStatus
    RunState.log
  simp [hsec, hasync, hact, hdone, hfail]

/-! ## Claim theorems: execution -/

/-- C1: for every non-async Step whose action raises when invoked with the
run context (under the spec's collaborator contract, in which
`update_status` does not itself raise), `execute` raises
`StepExecutionException`, the run's status has been updated to FAILED and
the run log contains a non-empty trace string. -/
theorem C1_sync_action_raises {α : Type} (step : Step α)
    (b : FlowRunBehavior) (s0 s1 : RunState) (e : PyExc)
    (hasync : step.async = false) (hsec : b.secretCheck = none)
    (hfail : b.updateStatusExc Status.FAILED = none)
    (hact : step.action s0 = (s1, .error e)) :
    ∃ sF : RunState,
      step.execute b s0 = (sF, .error PyExc.stepExecutionException)
      ∧ sF.status = some Status.FAILED
      ∧ ∃ t ∈ sF.logs, t ≠ "" := by
  rw [execute_sync_action_raises step b s0 s1 e hasync hsec hfail hact]
  exact ⟨_, rfl, rfl, format_exc e, by simp, format_exc_ne_empty e⟩

/-- Witness for C1: a concrete failing action. -/
theorem C1_witness :
    (Step.mk "s" (fun s => (s, .error (PyExc.other "ValueError" "boom")))
      false false [] [] : Step Nat).async = false
    ∧ (FlowRunBehavior.mk none fun _ => none).secretCheck = none
    ∧ (FlowRunBehavior.mk none fun _ => none).updateStatusExc Status.FAILED
      = none
    ∧ (Step.mk "s" (fun s => (s, .error (PyExc.other "ValueError" "boom")))
        false false [] [] : Step Nat).action (RunState.mk none [] []) =
      (RunState.mk none [] [], .error (PyExc.other "ValueError" "boom"))
    ∧ ∃ sF : RunState,
        (Step.mk "s" (fun s => (s, .error (PyExc.other "ValueError" "boom")))
          false false [] [] : Step Nat).execute
          (FlowRunBehavior.mk none fun _ => none) (RunState.mk none [] []) =
        (sF, .error PyExc.stepExecutionException)
        ∧ sF.status = some Status.FAILED
        ∧ ∃ t ∈ sF.logs, t ≠ "" :=
  ⟨rfl, rfl, rfl, rfl,
    C1_sync_action_raises
      (Step.mk "s" (fun s => (s, .error (PyExc.other "ValueError" "boom")))
        false false [] [])
      (FlowRunBehavior.mk none fun _ => none) (RunState.mk none [] [])
      (RunState.mk none [] []) (PyExc.other "ValueError" "boom")
      rfl rfl rfl rfl⟩

/-- C2: for every non-async Step whose secret check succeeds and whose
action returns `v` without raising (under the spec's collaborator
contract, in which `update_status` does not itself raise), `execute`
returns `v` and the run's status has been updated to DONE. -/
theorem C2_sync_action_returns {α : Type} (step : Step α)
    (b : FlowRunBehavior) (s0 s1 : RunState) (v : α)
    (hasync : step.async = false) (hsec : b.secretCheck = none)
    (hdone : b.updateStatusExc Status.DONE = none)
    (hact : step.action s0 = (s1, .ok v)) :
    ∃ sF : RunState, step.execute b s0 = (sF, .ok (some v))
      ∧ sF.status = some Status.DONE := by
  rw [execute_sync_action_returns step b s0 s1 v hasync hsec hdone hact]
  exact ⟨_, rfl, rfl⟩

/-- Witness for C2: a concrete successful action returning 7. -/
theorem C2_witness :
    (Step.mk "s" (fun s => (s, .ok 7)) false false [] [] : Step Nat).async
      = false
    ∧ (FlowRunBehavior.mk none fun _ => none).secretCheck = none
    ∧ (FlowRunBehavior.mk none fun _ => none).updateStatusExc Status.DONE
      = none
    ∧ (Step.mk "s" (fun s => (s, .ok 7)) false false [] [] : Step Nat).action
        (RunState.mk none [] []) = (RunState.mk none [] [], .ok 7)
    ∧ ∃ sF : RunState,
        (Step.mk "s" (fun s => (s, .ok 7)) false false [] []
          : Step Nat).execute (FlowRunBehavior.mk none fun _ => none)
          (RunState.mk none [] []) = (sF, .ok (some 7))
        ∧ sF.status = some Status.DONE :=
  ⟨rfl, rfl, rfl, rfl,
    C2_sync_action_returns (Step.mk "s" (fun s => (s, .ok 7)) false false [] [])
      (FlowRunBehavior.mk none fun _ => none) (RunState.mk none [] [])
      (RunState.mk none [] []) 7 rfl rfl rfl rfl⟩

/-- C3: for every Step (async or not), if `check_user_secret()` raises,
the action is never invoked (the result does not depend on it), the
traceback is logged to the run, the status is updated to FAILED, and
`StepExecutionException` is raised — independently of the original
exception's type and message, which are therefore not propagated. -/
theorem C3_secret_check_fails {α : Type} (step : Step α)
    (b : FlowRunBehavior) (s0 : RunState) (e : PyExc)
    (hsec : b.secretCheck = some e)
    (hfail : b.updateStatusExc Status.FAILED = none) :
    (∀ a1 a2 : RunState → RunState × Except PyExc α,
      Step.execute { step with action := a1 } b s0 =
      Step.execute { step with action := a2 } b s0)
    ∧ step.execute b s0 =
      ({ status := some Status.FAILED,
         logs := s0.logs ++ [format_exc e],
         statusCalls := s0.statusCalls ++ [Status.FAILED] },
       .error PyExc.stepExecutionException) := by
  refine ⟨fun a1 a2 => ?_, execute_secret_fails step b s0 e hsec hfail⟩
  rw [execute_secret_fails { step with action := a1 } b s0 e hsec hfail,
    execute_secret_fails { step with action := a2 } b s0 e hsec hfail]

/-- Witness for C3: a concrete failing secret check on an async step. -/
theorem C3_witness :
    (FlowRunBehavior.mk (some (PyExc.other "AuthenticationError" "bad"))
      fun _ => none).secretCheck =
      some (PyExc.other "AuthenticationError" "bad")
    ∧ (FlowRunBehavior.mk (some (PyExc.other "AuthenticationError" "bad"))
        fun _ => none).updateStatusExc Status.FAILED = none
    ∧ ((∀ a1 a2 : RunState → RunState × Except PyExc Nat,
        Step.execute { (Step.mk "s" (fun s => (s, .ok 7)) true false [] []
          : Step Nat) with action := a1 }
          (FlowRunBehavior.mk (some (PyExc.other "AuthenticationError" "bad"))
            fun _ => none) (RunState.mk none [] []) =
        Step.execute { (Step.mk "s" (fun s => (s, .ok 7)) true false [] []
          : Step Nat) with action := a2 }
          (FlowRunBehavior.mk (some (PyExc.other "AuthenticationError" "bad"))
            fun _ => none) (RunState.mk none [] []))
      ∧ (Step.mk "s" (fun s => (s, .ok 7)) true false [] []
          : Step Nat).execute
          (FlowRunBehavior.mk (some (PyExc.other "AuthenticationError" "bad"))
            fun _ => none) (RunState.mk none [] []) =
        ({ status := some Status.FAILED,
           logs := [] ++ [format_exc (PyExc.other "AuthenticationError" "bad")],
           statusCalls := [] ++ [Status.FAILED] },
         .error PyExc.stepExecutionException)) :=
  ⟨rfl, rfl,
    C3_secret_check_fails (Step.mk "s" (fun s => (s, .ok 7)) true false [] [])
      (FlowRunBehavior.mk (some (PyExc.other "AuthenticationError" "bad"))
        fun _ => none) (RunState.mk none [] [])
      (PyExc.other "AuthenticationError" "bad") rfl rfl⟩

/-- C9: for every non-async Step whose secret check succeeds but whose
action raises, `log` and `update_status(FAILED)` are each invoked exactly
twice during `execute` — the inner handler logs the action's traceback,
the outer handler logs the re-raised `StepExecutionException`'s traceback
— before `StepExecutionException` propagates. -/
theorem C9_handlers_run_twice {α : Type} (step : Step α)
    (b : FlowRunBehavior) (s0 s1 : RunState) (e : PyExc)
    (hasync : step.async = false) (hsec : b.secretCheck = none)
    (hfail : b.updateStatusExc Status.FAILED = none)
    (hact : step.action s0 = (s1, .error e)) :
    ∃ sF : RunState,
      step.execute b s0 = (sF, .error PyExc.stepExecutionException)
      ∧ sF.logs = s1.logs ++
          [format_exc e, format_exc PyExc.stepExecutionException]
      ∧ sF.statusCalls = s1.statusCalls ++ [Status.FAILED, Status.FAILED] := by
  rw [execute_sync_action_raises step b s0 s1 e hasync hsec hfail hact]
  exact ⟨_, rfl, rfl, rfl⟩

/-- Witness for C9: the concrete failing action logs twice and records two
FAILED updates. -/
theorem C9_witness :
    (Step.mk "s" (fun s => (s, .error (PyExc.other "ValueError" "boom")))
      false false [] [] : Step Nat).async = false
    ∧ (FlowRunBehavior.mk none fun _ => none).secretCheck = none
    ∧ (FlowRunBehavior.mk none fun _ => none).updateStatusExc Status.FAILED
      = none
    ∧ (Step.mk "s" (fun s => (s, .error (PyExc.other "ValueError" "boom")))
        false false [] [] : Step Nat).action (RunState.mk none [] []) =
      (RunState.mk none [] [], .error (PyExc.other "ValueError" "boom"))
    ∧ ∃ sF : RunState,
        (Step.mk "s" (fun s => (s, .error (PyExc.other "ValueError" "boom")))
          false false [] [] : Step Nat).execute
          (FlowRunBehavior.mk none fun _ => none) (RunState.mk none [] []) =
        (sF, .error PyExc.stepExecutionException)
        ∧ sF.logs = [] ++ [format_exc (PyExc.other "ValueError" "boom"),
            format_exc PyExc.stepExecutionException]
        ∧ sF.statusCalls = [] ++ [Status.FAILED, Status.FAILED] :=
  ⟨rfl, rfl, rfl, rfl,
    C9_handlers_run_twice
      (Step.mk "s" (fun s => (s, .error (PyExc.other "ValueError" "boom")))
        false false [] [])
      (FlowRunBehavior.mk none fun _ => none) (RunState.mk none [] [])
      (RunState.mk none [] []) (PyExc.other "ValueError" "boom")
      rfl rfl rfl rfl⟩

/-- C10: for every non-async Step whose action returns normally, if the
subsequent `update_status(DONE)` call raises, `execute` does not return
the action's value: the traceback is logged to the run, the status is
updated to FAILED and `StepExecutionException` is raised even though the
action succeeded. -/
theorem C10_done_update_raises {α : Type} (step : Step α)
    (b : FlowRunBehavior) (s0 s1 : RunState) (v : α) (e : PyExc)
    (hasync : step.async = false) (hsec : b.secretCheck = none)
    (hdone : b.updateStatusExc Status.DONE = some e)
    (hfail : b.updateStatusExc Status.FAILED = none)
    (hact : step.action s0 = (s1, .ok v)) :
    ∃ sF : RunState,
      step.execute b s0 = (sF, .error PyExc.stepExecutionException)
      ∧ sF.status = some Status.FAILED
      ∧ format_exc e ∈ sF.logs := by
  rw [execute_sync_done_update_raises step b s0 s1 v e hasync hsec hdone
    hfail hact]
  exact ⟨_, rfl, rfl, by simp⟩

/-- Witness for C10: a successful action under a collaborator whose DONE
update raises. -/
theorem C10_witness :
    (Step.mk "s" (fun s => (s, .ok 7)) false false [] [] : Step Nat).async
      = false
    ∧ (FlowRunBehavior.mk none fun st =>
        if st = Status.DONE then some (PyExc.other "ConnectionError" "lost")
        else none).secretCheck = none
    ∧ (FlowRunBehavior.mk none fun st =>
        if st = Status.DONE then some (PyExc.other "ConnectionError" "lost")
        else none).updateStatusExc Status.DONE =
      some (PyExc.other "ConnectionError" "lost")
    ∧ (FlowRunBehavior.mk none fun st =>
        if st = Status.DONE then some (PyExc.other "ConnectionError" "lost")
        else none).updateStatusExc Status.FAILED = none
    ∧ (Step.mk "s" (fun s => (s, .ok 7)) false false [] [] : Step Nat).action
        (RunState.mk none [] []) = (RunState.mk none [] [], .ok 7)
    ∧ ∃ sF : RunState,
        (Step.mk "s" (fun s => (s, .ok 7)) false false [] []
          : Step Nat).execute
          (FlowRunBehavior.mk none fun st =>
            if st = Status.DONE
            then some (PyExc.other "ConnectionError" "lost") else none)
          (RunState.mk none [] []) =
        (sF, .error PyExc.stepExecutionException)
        ∧ sF.status = some Status.FAILED
        ∧ format_exc (PyExc.other "ConnectionError" "lost") ∈ sF.logs :=
  ⟨rfl, rfl, rfl, rfl, rfl,
    C10_done_update_raises (Step.mk "s" (fun s => (s, .ok 7)) false false [] [])
      (FlowRunBehavior.mk none fun st =>
        if st = Status.DONE then some (PyExc.other "ConnectionError" "lost")
        else none)
      (RunState.mk none [] []) (RunState.mk none [] []) 7
      (PyExc.other "ConnectionError" "lost") rfl rfl rfl rfl rfl⟩
